import Mathlib

/-!
Shallow embedding of `src/smart_pointers.h` (a reference-counted smart
pointer library: `SharedPtr`, `WeakPtr`, `EnableSharedFromThis`,
`makeShared`).

Modelling conventions:
* A control block (`BaseControlBlock`, lines 15-23 of the source) is a
  record of the two counters `shared_cnt` and `weak_cnt` together with
  the concrete variant (`RegularControlBlock` stores the raw object
  pointer; `MakeSharedControlBlock` embeds the object's storage).  The
  side-effecting virtual calls `destroy_object()` / `deallocate_cb()`
  are recorded by two ghost event counters `destroyCalls` /
  `deallocCalls`, so that "called exactly once" is a statement about
  those counters.
* The owned object type `T` is modelled as `Nat`; a raw object pointer
  `T*` is modelled by the object value it addresses (the source never
  performs pointer arithmetic), wrapped in `Option` so that `none` is
  the null pointer.
* Control-block pointers are addresses (`Nat`) into a heap
  `Heap = Nat → BaseControlBlock`; `none` is the null block pointer.
  Deallocated storage is modelled as persisting with its
  `deallocCalls` counter bumped (the C++ memory is returned to the
  allocator; the ghost counter records that event).
* C++ undefined behaviour (dereferencing a null pointer) is modelled
  by `Option`-valued results, `none` meaning "no defined value".
-/

namespace SmartPointers

/-- The concrete control-block variant: `RegularControlBlock` (separate
allocation, stores the raw object pointer, source lines 25-50) or
`MakeSharedControlBlock` (fused allocation, embeds the object's
storage, source lines 52-82). -/
inductive CBVariant where
  | regular (objectPtr : Nat)
  | fused (object : Nat)
  deriving DecidableEq, Repr

/-- `BaseControlBlock` (source lines 15-23): the two reference counters
plus the concrete variant, extended with ghost counters recording how
many times `destroy_object()` and `deallocate_cb()` have been invoked
on this block. -/
structure BaseControlBlock where
  shared_cnt : Nat
  weak_cnt : Nat
  variant : CBVariant
  destroyCalls : Nat
  deallocCalls : Nat
  deriving DecidableEq, Repr

/-- `++cb->shared_cnt` (source lines 135-137, 145-147, 240-242). -/
def incSharedB (b : BaseControlBlock) : BaseControlBlock :=
  { b with shared_cnt := b.shared_cnt + 1 }

/-- `++cb->weak_cnt` (source lines 318-320, 326-328, 332-334, 340-342). -/
def incWeakB (b : BaseControlBlock) : BaseControlBlock :=
  { b with weak_cnt := b.weak_cnt + 1 }

/-- `SharedPtr::clear` (source lines 245-256) on a non-null block:
decrement `shared_cnt`; if it reached 0, call `destroy_object()`, and
then if `weak_cnt == 0` also call `deallocate_cb()`.  The two ghost
counters are bumped in the source's call order (`destroy_object`
strictly before `deallocate_cb`). -/
def SharedPtr.clearB (b : BaseControlBlock) : BaseControlBlock :=
  let b1 := { b with shared_cnt := b.shared_cnt - 1 }
  if b1.shared_cnt = 0 then
    let b2 := { b1 with destroyCalls := b1.destroyCalls + 1 }
    if b2.weak_cnt = 0 then
      { b2 with deallocCalls := b2.deallocCalls + 1 }
    else b2
  else b1

/-- `WeakPtr::clear` (source lines 416-424) on a non-null block:
decrement `weak_cnt`; if both counters are now 0, call
`deallocate_cb()`. -/
def WeakPtr.clearB (b : BaseControlBlock) : BaseControlBlock :=
  let b1 := { b with weak_cnt := b.weak_cnt - 1 }
  if b1.shared_cnt = 0 ∧ b1.weak_cnt = 0 then
    { b1 with deallocCalls := b1.deallocCalls + 1 }
  else b1

/-- The pointer pair held by both handle classes (source lines 273-274
and 426-427): `object` is the direct raw object pointer (`none` = null,
which is the case for empty handles and for handles onto a fused
block), `cb` is the control-block pointer (`none` = null). -/
structure SPtr where
  object : Option Nat
  cb : Option Nat
  deriving DecidableEq, Repr

/-- A default-constructed (empty) handle: both fields null (source
lines 87, 315 with the default member initializers at 273-274,
426-427). -/
def SPtr.empty : SPtr := ⟨none, none⟩

/-- The store of control blocks, indexed by block address. -/
def Heap : Type := Nat → BaseControlBlock

/-- Update the block stored at address `a`. -/
def Heap.write (h : Heap) (a : Nat) (b : BaseControlBlock) : Heap :=
  fun x => if x = a then b else h x

/-- Read the block stored at address `a` (written `h a` via this
coercion-free helper for readability in statements). -/
def Heap.read (h : Heap) (a : Nat) : BaseControlBlock := h a

/-- `SharedPtr` copy constructor (source lines 132-138) for an owned
type without the `EnableSharedFromThis` base (the
`update_enable_shared_from_this` call is a compile-time no-op then):
copy the pointer pair and, if the block pointer is non-null, increment
`shared_cnt`. -/
def SharedPtr.copyCtorH (p : SPtr) (h : Heap) : SPtr × Heap :=
  match p.cb with
  | none => (⟨p.object, p.cb⟩, h)
  | some a => (⟨p.object, p.cb⟩, h.write a (incSharedB (h.read a)))

/-- `SharedPtr` move constructor (source lines 150-157): the new handle
takes the pointer pair, the source is emptied, and no control block is
touched (the heap argument is returned unchanged). -/
def SharedPtr.moveCtorH (p : SPtr) (h : Heap) : SPtr × SPtr × Heap :=
  (⟨p.object, p.cb⟩, SPtr.empty, h)

/-- `~SharedPtr` / `SharedPtr::clear` at the handle level (source lines
204-206, 245-248): a null block pointer returns immediately, otherwise
the block is updated by `SharedPtr.clearB`. -/
def SharedPtr.clearH (p : SPtr) (h : Heap) : Heap :=
  match p.cb with
  | none => h
  | some a => h.write a (SharedPtr.clearB (h.read a))

/-- `SharedPtr::operator=(SharedPtr&&)` (source lines 176-180), for
two distinct handle objects: `SharedPtr copy(std::move(shptr));
swap(copy);` followed by the temporary's destructor, which releases the
destination's previous reference.  Returns (new destination, new
source, new heap). -/
def SharedPtr.moveAssignH (dst src : SPtr) (h : Heap) : SPtr × SPtr × Heap :=
  let copy : SPtr := ⟨src.object, src.cb⟩
  let src' : SPtr := SPtr.empty
  let dst' := copy
  let h' := SharedPtr.clearH dst h
  (dst', src', h')

/-- `SharedPtr::use_count` (source lines 208-210): `return
cb->shared_cnt;` with no null guard, so an empty handle dereferences a
null pointer — modelled as `none` (undefined behaviour). -/
def SharedPtr.use_countH (p : SPtr) (h : Heap) : Option Nat :=
  match p.cb with
  | none => none
  | some a => some (h.read a).shared_cnt

/-- `SharedPtr::get` (source lines 212-214): returns the direct raw
object pointer, whatever it is. -/
def SharedPtr.getH (p : SPtr) : Option Nat :=
  p.object

/-- `SharedPtr::operator*` (source lines 190-195): if the direct
pointer is non-null, dereference it; otherwise `static_cast` the block
to `MakeSharedControlBlock` and return its embedded object.  An empty
handle, or a regular block reached through a null direct pointer,
is undefined behaviour (`none`). -/
def SharedPtr.derefH (p : SPtr) (h : Heap) : Option Nat :=
  match p.object with
  | some x => some x
  | none =>
    match p.cb with
    | none => none
    | some a =>
      match (h.read a).variant with
      | CBVariant.fused v => some v
      | CBVariant.regular _ => none

/-- `WeakPtr(const SharedPtr&)` (source lines 317-321): copy the
pointer pair; if the block pointer is non-null, increment `weak_cnt`. -/
def WeakPtr.fromSharedH (p : SPtr) (h : Heap) : SPtr × Heap :=
  match p.cb with
  | none => (⟨p.object, p.cb⟩, h)
  | some a => (⟨p.object, p.cb⟩, h.write a (incWeakB (h.read a)))

/-- `WeakPtr` copy constructor (source lines 331-335): same shape as
`WeakPtr.fromSharedH` but sourced from a weak handle. -/
def WeakPtr.copyCtorH (w : SPtr) (h : Heap) : SPtr × Heap :=
  match w.cb with
  | none => (⟨w.object, w.cb⟩, h)
  | some a => (⟨w.object, w.cb⟩, h.write a (incWeakB (h.read a)))

/-- `~WeakPtr` / `WeakPtr::clear` at the handle level (source lines
388-390, 416-419): null block pointer returns immediately, otherwise
the block is updated by `WeakPtr.clearB`. -/
def WeakPtr.clearH (w : SPtr) (h : Heap) : Heap :=
  match w.cb with
  | none => h
  | some a => h.write a (WeakPtr.clearB (h.read a))

/-- `WeakPtr::use_count` (source lines 392-397): 0 for a null block
pointer, else the block's `shared_cnt`. -/
def WeakPtr.use_countH (w : SPtr) (h : Heap) : Nat :=
  match w.cb with
  | none => 0
  | some a => (h.read a).shared_cnt

/-- `WeakPtr::expired` (source lines 399-401): `use_count() == 0`. -/
def WeakPtr.expiredH (w : SPtr) (h : Heap) : Bool :=
  WeakPtr.use_countH w h == 0

/-- The private `SharedPtr(WeakPtr<T>)` constructor body (source lines
239-243) acting on the heap: copy the pointer pair and increment
`shared_cnt` when the block pointer is non-null.  (The by-value
parameter's copy construction and destruction are modelled at the
`lock` call site.) -/
def SharedPtr.fromWeakBodyH (w : SPtr) (h : Heap) : SPtr × Heap :=
  match w.cb with
  | none => (⟨w.object, w.cb⟩, h)
  | some a => (⟨w.object, w.cb⟩, h.write a (incSharedB (h.read a)))

/-- `WeakPtr::lock` (source lines 403-408): if expired, return an
empty strong handle and leave the heap alone; otherwise call the
private `SharedPtr(WeakPtr<T>)` constructor, whose by-value parameter
first copy-constructs a weak handle (`weak_cnt` up), then the
constructor body increments `shared_cnt`, then the parameter is
destroyed (`WeakPtr::clear`, `weak_cnt` back down).  Returns the new
strong handle and the updated heap. -/
def WeakPtr.lockH (w : SPtr) (h : Heap) : SPtr × Heap :=
  if WeakPtr.expiredH w h then (SPtr.empty, h)
  else
    let (param, h1) := WeakPtr.copyCtorH w h
    let (sp, h2) := SharedPtr.fromWeakBodyH param h1
    let h3 := WeakPtr.clearH param h2
    (sp, h3)

/-- `makeShared` (source lines 289-294) together with the private
`SharedPtr(MakeSharedControlBlock*)` constructor (lines 233-237), for
an owned type without the `EnableSharedFromThis` base: allocate one
fused block holding the object constructed in place with counts
`(1, 0)` at the fresh address `a`, and return a strong handle whose
direct pointer is null and whose block pointer is that block. -/
def makeShared (v : Nat) (h : Heap) (a : Nat) : SPtr × Heap :=
  (⟨none, some a⟩, h.write a ⟨1, 0, CBVariant.fused v, 0, 0⟩)

/-- The raw-pointer constructor `SharedPtr(T*, Deleter, Alloc)` (source
lines 89-108), for an owned type without the `EnableSharedFromThis`
base: allocate a fresh `RegularControlBlock` with counts `(1, 0)`
holding the given pointer at the fresh address `a`; the handle's direct
pointer is the given raw pointer. -/
def SharedPtr.fromRaw (ptr : Nat) (h : Heap) (a : Nat) : SPtr × Heap :=
  (⟨some ptr, some a⟩, h.write a ⟨1, 0, CBVariant.regular ptr, 0, 0⟩)

/-!
A single-block state machine used to prove the trace invariants.  A
state is one control block together with two ghost counters: the
number of live strong handles and the number of live weak handles
currently referencing that block.  Each step is one handle operation
from the source that touches (or deliberately does not touch) the
block's counters.
-/

/-- One control block plus ghost counts of the live strong and weak
handles currently referencing it. -/
structure SysState where
  blk : BaseControlBlock
  liveStrong : Nat
  liveWeak : Nat
  deriving DecidableEq, Repr

/-- The handle operations on a block `B` from the source:
copy-construct / copy-assign a strong handle from a live strong handle
sharing `B` (lines 132-148, 159-174), move-construct / move-assign
from a live strong handle (lines 150-157, 176-188: the new handle
replaces the moved-from one, no counter touched), destroy or `reset()`
a live strong handle (lines 204-206, 216-225, 245-256), create a weak
handle from a live strong handle (lines 317-329), copy a live weak
handle (lines 331-343, 357-372), move a live weak handle (lines
345-355, 374-386), destroy a live weak handle (lines 388-390,
416-424), and `lock()` a live weak handle (lines 403-408). -/
inductive HandleOp where
  | copyStrong
  | moveStrong
  | destroyStrong
  | weakFromStrong
  | copyWeak
  | moveWeak
  | destroyWeak
  | lockWeak
  deriving DecidableEq, Repr

/-- Enabling condition of each operation: it must be performed through
a live handle referencing the block. -/
def HandleOp.pre : HandleOp → SysState → Prop
  | .copyStrong, s => 1 ≤ s.liveStrong
  | .moveStrong, s => 1 ≤ s.liveStrong
  | .destroyStrong, s => 1 ≤ s.liveStrong
  | .weakFromStrong, s => 1 ≤ s.liveStrong
  | .copyWeak, s => 1 ≤ s.liveWeak
  | .moveWeak, s => 1 ≤ s.liveWeak
  | .destroyWeak, s => 1 ≤ s.liveWeak
  | .lockWeak, s => 1 ≤ s.liveWeak

/-- Effect of each operation, translated from the source: copies
increment the matching counter and add a live handle; moves transfer
the pair without touching the block; destruction runs the matching
`clear`; `lock()` on an expired handle changes nothing, otherwise it
runs the private `SharedPtr(WeakPtr<T>)` constructor (by-value
parameter: `weak_cnt` up, `shared_cnt` up, `weak_cnt` back down) and
yields a new live strong handle. -/
def HandleOp.step : HandleOp → SysState → SysState
  | .copyStrong, s => ⟨incSharedB s.blk, s.liveStrong + 1, s.liveWeak⟩
  | .moveStrong, s => s
  | .destroyStrong, s => ⟨SharedPtr.clearB s.blk, s.liveStrong - 1, s.liveWeak⟩
  | .weakFromStrong, s => ⟨incWeakB s.blk, s.liveStrong, s.liveWeak + 1⟩
  | .copyWeak, s => ⟨incWeakB s.blk, s.liveStrong, s.liveWeak + 1⟩
  | .moveWeak, s => s
  | .destroyWeak, s => ⟨WeakPtr.clearB s.blk, s.liveStrong, s.liveWeak - 1⟩
  | .lockWeak, s =>
    if s.blk.shared_cnt = 0 then s
    else
      ⟨WeakPtr.clearB (incSharedB (incWeakB s.blk)), s.liveStrong + 1, s.liveWeak⟩

/-- States reachable from the creation of a block: every constructor
that creates a block (`SharedPtr(T*, ...)`, `makeShared`,
`allocateShared`) starts it with counts `(1, 0)`, no destroy or
deallocate event, and exactly one live strong handle; then any
sequence of enabled handle operations may run. -/
inductive Reachable : SysState → Prop
  | start (v : CBVariant) : Reachable ⟨⟨1, 0, v, 0, 0⟩, 1, 0⟩
  | step (s : SysState) (o : HandleOp) : Reachable s → o.pre s →
      Reachable (o.step s)

/-- The block invariant: the counters mirror the live-handle counts,
the object has been destroyed exactly when no strong handle is left
(independently of the weak count), and the block has been deallocated
exactly when no handle of either kind is left. -/
def countInv (s : SysState) : Prop :=
  s.blk.shared_cnt = s.liveStrong ∧
  s.blk.weak_cnt = s.liveWeak ∧
  s.blk.destroyCalls = (if s.liveStrong = 0 then 1 else 0) ∧
  s.blk.deallocCalls = (if s.liveStrong = 0 ∧ s.liveWeak = 0 then 1 else 0)

theorem strongClearB_shared (b : BaseControlBlock) :
    (SharedPtr.clearB b).shared_cnt = b.shared_cnt - 1 := by
  by_cases hc : b.shared_cnt - 1 = 0 <;> by_cases hw : b.weak_cnt = 0 <;>
    simp [SharedPtr.clearB, hc, hw]

theorem strongClearB_weak (b : BaseControlBlock) :
    (SharedPtr.clearB b).weak_cnt = b.weak_cnt := by
  by_cases hc : b.shared_cnt - 1 = 0 <;> by_cases hw : b.weak_cnt = 0 <;>
    simp [SharedPtr.clearB, hc, hw]

theorem strongClearB_variant (b : BaseControlBlock) :
    (SharedPtr.clearB b).variant = b.variant := by
  by_cases hc : b.shared_cnt - 1 = 0 <;> by_cases hw : b.weak_cnt = 0 <;>
    simp [SharedPtr.clearB, hc, hw]

theorem strongClearB_destroy (b : BaseControlBlock) :
    (SharedPtr.clearB b).destroyCalls =
      if b.shared_cnt - 1 = 0 then b.destroyCalls + 1 else b.destroyCalls := by
  by_cases hc : b.shared_cnt - 1 = 0 <;> by_cases hw : b.weak_cnt = 0 <;>
    simp [SharedPtr.clearB, hc, hw]

theorem strongClearB_dealloc (b : BaseControlBlock) :
    (SharedPtr.clearB b).deallocCalls =
      if b.shared_cnt - 1 = 0 ∧ b.weak_cnt = 0 then b.deallocCalls + 1
      else b.deallocCalls := by
  by_cases hc : b.shared_cnt - 1 = 0 <;> by_cases hw : b.weak_cnt = 0 <;>
    simp [SharedPtr.clearB, hc, hw]

theorem weakClearB_shared (b : BaseControlBlock) :
    (WeakPtr.clearB b).shared_cnt = b.shared_cnt := by
  by_cases hc : b.shared_cnt = 0 <;> by_cases hw : b.weak_cnt - 1 = 0 <;>
    simp [WeakPtr.clearB, hc, hw]

theorem weakClearB_weak (b : BaseControlBlock) :
    (WeakPtr.clearB b).weak_cnt = b.weak_cnt - 1 := by
  by_cases hc : b.shared_cnt = 0 <;> by_cases hw : b.weak_cnt - 1 = 0 <;>
    simp [WeakPtr.clearB, hc, hw]

theorem weakClearB_variant (b : BaseControlBlock) :
    (WeakPtr.clearB b).variant = b.variant := by
  by_cases hc : b.shared_cnt = 0 <;> by_cases hw : b.weak_cnt - 1 = 0 <;>
    simp [WeakPtr.clearB, hc, hw]

theorem weakClearB_destroy (b : BaseControlBlock) :
    (WeakPtr.clearB b).destroyCalls = b.destroyCalls := by
  by_cases hc : b.shared_cnt = 0 <;> by_cases hw : b.weak_cnt - 1 = 0 <;>
    simp [WeakPtr.clearB, hc, hw]

theorem weakClearB_dealloc (b : BaseControlBlock) :
    (WeakPtr.clearB b).deallocCalls =
      if b.shared_cnt = 0 ∧ b.weak_cnt - 1 = 0 then b.deallocCalls + 1
      else b.deallocCalls := by
  by_cases hc : b.shared_cnt = 0 <;> by_cases hw : b.weak_cnt - 1 = 0 <;>
    simp [WeakPtr.clearB, hc, hw]

theorem countInv_of_reachable {s : SysState} (hs : Reachable s) : countInv s := by
  induction hs with
  | start v => simp [countInv]
  | step s o _ hpre ih =>
    obtain ⟨h1, h2, h3, h4⟩ := ih
    cases o with
    | copyStrong =>
      have hp : 1 ≤ s.liveStrong := hpre
      refine ⟨?_, ?_, ?_, ?_⟩
      · show s.blk.shared_cnt + 1 = s.liveStrong + 1
        omega
      · exact h2
      · show s.blk.destroyCalls = if s.liveStrong + 1 = 0 then 1 else 0
        rw [h3]
        by_cases hn : s.liveStrong = 0 <;> simp [hn] <;> omega
      · show s.blk.deallocCalls =
          if s.liveStrong + 1 = 0 ∧ s.liveWeak = 0 then 1 else 0
        rw [h4]
        by_cases hn : s.liveStrong = 0 <;> by_cases hm : s.liveWeak = 0 <;>
          simp [hn, hm] <;> omega
    | moveStrong =>
      exact ⟨h1, h2, h3, h4⟩
    | destroyStrong =>
      have hp : 1 ≤ s.liveStrong := hpre
      refine ⟨?_, ?_, ?_, ?_⟩
      · show (SharedPtr.clearB s.blk).shared_cnt = s.liveStrong - 1
        rw [strongClearB_shared, h1]
      · show (SharedPtr.clearB s.blk).weak_cnt = s.liveWeak
        rw [strongClearB_weak, h2]
      · show (SharedPtr.clearB s.blk).destroyCalls =
          if s.liveStrong - 1 = 0 then 1 else 0
        rw [strongClearB_destroy, h1, h3]; split_ifs <;> omega
      · show (SharedPtr.clearB s.blk).deallocCalls =
          if s.liveStrong - 1 = 0 ∧ s.liveWeak = 0 then 1 else 0
        rw [strongClearB_dealloc, h1, h2, h4]; split_ifs <;> omega
    | weakFromStrong =>
      have hp : 1 ≤ s.liveStrong := hpre
      refine ⟨?_, ?_, ?_, ?_⟩
      · exact h1
      · show s.blk.weak_cnt + 1 = s.liveWeak + 1
        omega
      · exact h3
      · show s.blk.deallocCalls =
          if s.liveStrong = 0 ∧ s.liveWeak + 1 = 0 then 1 else 0
        rw [h4]
        by_cases hn : s.liveStrong = 0 <;> by_cases hm : s.liveWeak = 0 <;>
          simp [hn, hm] <;> omega
    | copyWeak =>
      have hp : 1 ≤ s.liveWeak := hpre
      refine ⟨?_, ?_, ?_, ?_⟩
      · exact h1
      · show s.blk.weak_cnt + 1 = s.liveWeak + 1
        omega
      · exact h3
      · show s.blk.deallocCalls =
          if s.liveStrong = 0 ∧ s.liveWeak + 1 = 0 then 1 else 0
        rw [h4]
        by_cases hn : s.liveStrong = 0 <;> by_cases hm : s.liveWeak = 0 <;>
          simp [hn, hm] <;> omega
    | moveWeak =>
      exact ⟨h1, h2, h3, h4⟩
    | destroyWeak =>
      have hp : 1 ≤ s.liveWeak := hpre
      refine ⟨?_, ?_, ?_, ?_⟩
      · show (WeakPtr.clearB s.blk).shared_cnt = s.liveStrong
        rw [weakClearB_shared, h1]
      · show (WeakPtr.clearB s.blk).weak_cnt = s.liveWeak - 1
        rw [weakClearB_weak, h2]
      · show (WeakPtr.clearB s.blk).destroyCalls =
          if s.liveStrong = 0 then 1 else 0
        rw [weakClearB_destroy, h3]
      · show (WeakPtr.clearB s.blk).deallocCalls =
          if s.liveStrong = 0 ∧ s.liveWeak - 1 = 0 then 1 else 0
        rw [weakClearB_dealloc, h1, h2, h4]; split_ifs <;> omega
    | lockWeak =>
      have hp : 1 ≤ s.liveWeak := hpre
      by_cases hz : s.blk.shared_cnt = 0
      · show countInv (if s.blk.shared_cnt = 0 then s else _)
        rw [if_pos hz]
        exact ⟨h1, h2, h3, h4⟩
      · show countInv (if s.blk.shared_cnt = 0 then s else
          ⟨WeakPtr.clearB (incSharedB (incWeakB s.blk)),
            s.liveStrong + 1, s.liveWeak⟩)
        rw [if_neg hz]
        refine ⟨?_, ?_, ?_, ?_⟩
        · show (WeakPtr.clearB (incSharedB (incWeakB s.blk))).shared_cnt =
            s.liveStrong + 1
          rw [weakClearB_shared]
          show s.blk.shared_cnt + 1 = s.liveStrong + 1
          omega
        · show (WeakPtr.clearB (incSharedB (incWeakB s.blk))).weak_cnt =
            s.liveWeak
          rw [weakClearB_weak]
          show s.blk.weak_cnt + 1 - 1 = s.liveWeak
          omega
        · show (WeakPtr.clearB (incSharedB (incWeakB s.blk))).destroyCalls =
            if s.liveStrong + 1 = 0 then 1 else 0
          rw [weakClearB_destroy]
          show s.blk.destroyCalls = if s.liveStrong + 1 = 0 then 1 else 0
          rw [h3]
          by_cases hn : s.liveStrong = 0 <;> simp [hn] <;> omega
        · show (WeakPtr.clearB (incSharedB (incWeakB s.blk))).deallocCalls =
            if s.liveStrong + 1 = 0 ∧ s.liveWeak = 0 then 1 else 0
          rw [weakClearB_dealloc]
          show (if s.blk.shared_cnt + 1 = 0 ∧ s.blk.weak_cnt + 1 - 1 = 0
              then s.blk.deallocCalls + 1 else s.blk.deallocCalls) =
            if s.liveStrong + 1 = 0 ∧ s.liveWeak = 0 then 1 else 0
          rw [h1, h2, h4]
          by_cases hn : s.liveStrong = 0 <;> by_cases hm : s.liveWeak = 0 <;>
            simp [hn, hm] <;> omega

/-- A scratch heap for concrete evaluations: every address holds an
inert zeroed regular block. -/
def h0 : Heap := fun _ => ⟨0, 0, CBVariant.regular 0, 0, 0⟩

/-- A heap whose block at address 0 has `shared_cnt = 2` (as after one
`makeShared`-style creation plus one copy), used as a concrete
counterexample input. -/
def hS2 : Heap := Heap.write h0 0 ⟨2, 0, CBVariant.regular 5, 0, 0⟩

/-- C8: for every weak handle, `use_count()` returns 0 if the block
pointer is null and otherwise the block's `shared_cnt` (the strong
count), and `expired()` returns `true` exactly when `use_count() == 0`. -/
theorem C8_weak_use_count_expired (w : SPtr) (h : Heap) :
    (w.cb = none → WeakPtr.use_countH w h = 0) ∧
    (∀ a, w.cb = some a → WeakPtr.use_countH w h = (h.read a).shared_cnt) ∧
    (WeakPtr.expiredH w h = true ↔ WeakPtr.use_countH w h = 0) := by
  refine ⟨?_, ?_, ?_⟩
  · intro hn
    simp [WeakPtr.use_countH, hn]
  · intro a ha
    simp [WeakPtr.use_countH, ha]
  · simp [WeakPtr.expiredH]

theorem C8_weak_use_count_expired_witness :
    WeakPtr.use_countH SPtr.empty h0 = 0 ∧
    WeakPtr.use_countH ⟨none, some 0⟩ hS2 = (hS2.read 0).shared_cnt ∧
    (WeakPtr.expiredH ⟨none, some 0⟩ hS2 = true ↔
      WeakPtr.use_countH ⟨none, some 0⟩ hS2 = 0) :=
  ⟨(C8_weak_use_count_expired SPtr.empty h0).1 rfl,
   (C8_weak_use_count_expired ⟨none, some 0⟩ hS2).2.1 0 rfl,
   (C8_weak_use_count_expired ⟨none, some 0⟩ hS2).2.2⟩

/-- C5 counterexample: the claim says `use_count()` returns 0 on an
empty strong handle, but `SharedPtr::use_count` dereferences the null
block pointer without a guard, so it yields no value at all. -/
theorem C5_empty_use_count_not_zero :
    SharedPtr.use_countH SPtr.empty h0 ≠ some 0 := by
  decide

/-- C5 (amended): for every strong handle with a non-null block
pointer, `use_count()` returns the block's current `shared_cnt`; on an
empty handle it dereferences the null block pointer without a guard
(undefined behaviour, no value), unlike the guarded weak-handle
version. -/
theorem C5_use_count (p : SPtr) (h : Heap) :
    (∀ a, p.cb = some a →
      SharedPtr.use_countH p h = some (h.read a).shared_cnt) ∧
    (p.cb = none → SharedPtr.use_countH p h = none) := by
  refine ⟨?_, ?_⟩
  · intro a ha
    simp [SharedPtr.use_countH, ha]
  · intro hn
    simp [SharedPtr.use_countH, hn]

theorem C5_use_count_witness :
    SharedPtr.use_countH ⟨some 5, some 0⟩ hS2 = some (hS2.read 0).shared_cnt ∧
    SharedPtr.use_countH SPtr.empty hS2 = none :=
  ⟨(C5_use_count ⟨some 5, some 0⟩ hS2).1 0 rfl,
   (C5_use_count SPtr.empty hS2).2 rfl⟩

/-- C6: `makeShared` allocates exactly one fused block (one heap write,
every other address untouched) holding the object constructed in place
with counts `(1, 0)`, and returns a strong handle whose direct pointer
is null, dereference routing through the block's embedded storage. -/
theorem C6_makeShared (v : Nat) (h : Heap) (a : Nat) :
    (makeShared v h a).1.object = none ∧
    (makeShared v h a).1.cb = some a ∧
    (makeShared v h a).2.read a =
      ⟨1, 0, CBVariant.fused v, 0, 0⟩ ∧
    SharedPtr.derefH (makeShared v h a).1 (makeShared v h a).2 = some v ∧
    (∀ x, x ≠ a → (makeShared v h a).2.read x = h.read x) := by
  refine ⟨rfl, rfl, ?_, ?_, ?_⟩
  · simp [makeShared, Heap.write, Heap.read]
  · simp [makeShared, SharedPtr.derefH, Heap.write, Heap.read]
  · intro x hx
    simp [makeShared, Heap.write, Heap.read, hx]

theorem C6_makeShared_witness :
    (makeShared 42 h0 3).1.object = none ∧
    (makeShared 42 h0 3).1.cb = some 3 ∧
    (makeShared 42 h0 3).2.read 3 = ⟨1, 0, CBVariant.fused 42, 0, 0⟩ ∧
    SharedPtr.derefH (makeShared 42 h0 3).1 (makeShared 42 h0 3).2 =
      some 42 ∧
    (makeShared 42 h0 3).2.read 7 = h0.read 7 :=
  ⟨(C6_makeShared 42 h0 3).1, (C6_makeShared 42 h0 3).2.1,
   (C6_makeShared 42 h0 3).2.2.1, (C6_makeShared 42 h0 3).2.2.2.1,
   (C6_makeShared 42 h0 3).2.2.2.2 7 (by decide)⟩

/-- C10: a non-empty strong handle produced by the in-place factory
has a null direct pointer, so `get()` returns null, even though the
handle owns a live object (counts `(1, 0)`, nothing destroyed) and
dereference succeeds through the fused block's embedded storage. -/
theorem C10_get_null_on_fused_handle (v : Nat) (h : Heap) (a : Nat) :
    SharedPtr.getH (makeShared v h a).1 = none ∧
    (makeShared v h a).1.cb = some a ∧
    ((makeShared v h a).2.read a).shared_cnt = 1 ∧
    ((makeShared v h a).2.read a).destroyCalls = 0 ∧
    SharedPtr.derefH (makeShared v h a).1 (makeShared v h a).2 = some v := by
  refine ⟨rfl, rfl, ?_, ?_, ?_⟩
  · simp [makeShared, Heap.write, Heap.read]
  · simp [makeShared, Heap.write, Heap.read]
  · simp [makeShared, SharedPtr.derefH, Heap.write, Heap.read]

/-- Scenario stage: strong handle A constructed by the in-place
factory at block address 0. -/
def scenA : SPtr × Heap := makeShared 42 h0 0

/-- Scenario stage: A copied to B. -/
def scenB : SPtr × Heap := SharedPtr.copyCtorH scenA.1 scenA.2

/-- Scenario stage: A destroyed. -/
def scenDA : Heap := SharedPtr.clearH scenA.1 scenB.2

/-- Scenario stage: weak handle W created from B. -/
def scenW : SPtr × Heap := WeakPtr.fromSharedH scenB.1 scenDA

/-- Scenario stage: B destroyed. -/
def scenDB : Heap := SharedPtr.clearH scenB.1 scenW.2

/-- Scenario stage: W destroyed. -/
def scenDW : Heap := WeakPtr.clearH scenW.1 scenDB

/-- C7: the spec's lifecycle scenario, executed literally: construct A
via the in-place factory (counts `(1,0)`), copy A to B (`(2,0)`),
destroy A (`(1,0)`, object alive), create weak W from B (`(1,1)`),
destroy B (object destroyed exactly now, `(0,1)`, block storage still
live), observe `W.expired() = true`, destroy W (`(0,0)`, block storage
released exactly once). -/
theorem C7_lifecycle_scenario :
    ((scenA.2.read 0).shared_cnt = 1 ∧ (scenA.2.read 0).weak_cnt = 0) ∧
    ((scenB.2.read 0).shared_cnt = 2 ∧ (scenB.2.read 0).weak_cnt = 0) ∧
    ((scenDA.read 0).shared_cnt = 1 ∧ (scenDA.read 0).weak_cnt = 0 ∧
      (scenDA.read 0).destroyCalls = 0) ∧
    ((scenW.2.read 0).shared_cnt = 1 ∧ (scenW.2.read 0).weak_cnt = 1) ∧
    ((scenDB.read 0).shared_cnt = 0 ∧ (scenDB.read 0).weak_cnt = 1 ∧
      (scenDB.read 0).destroyCalls = 1 ∧ (scenDB.read 0).deallocCalls = 0) ∧
    WeakPtr.expiredH scenW.1 scenDB = true ∧
    ((scenDW.read 0).shared_cnt = 0 ∧ (scenDW.read 0).weak_cnt = 0 ∧
      (scenDW.read 0).destroyCalls = 1 ∧ (scenDW.read 0).deallocCalls = 1) := by
  decide

/-- C9 counterexample: move assignment between two distinct strong
handles that share the same block does change that block's
`shared_cnt`: the destination's previous reference is released by the
move-and-swap temporary's destructor, dropping the count from 2 to 1. -/
theorem C9_same_block_move_assign_changes_count :
    (hS2.read 0).shared_cnt = 2 ∧
    (((SharedPtr.moveAssignH ⟨some 5, some 0⟩ ⟨some 5, some 0⟩
        hS2).2.2).read 0).shared_cnt = 1 := by
  decide

/-- C9 (amended): move construction transfers the pointer pair, empties
the source, and touches no control block; move assignment transfers the
pair and empties the source, additionally releasing the destination's
previous reference (as the destructor would), so when the destination
is empty no count of any block changes. -/
theorem C9_move_transfer (src dst : SPtr) (h : Heap)
    (hdst : dst.cb = none) :
    (SharedPtr.moveCtorH src h).1 = ⟨src.object, src.cb⟩ ∧
    (SharedPtr.moveCtorH src h).2.1 = SPtr.empty ∧
    (SharedPtr.moveCtorH src h).2.2 = h ∧
    (SharedPtr.moveAssignH dst src h).1 = ⟨src.object, src.cb⟩ ∧
    (SharedPtr.moveAssignH dst src h).2.1 = SPtr.empty ∧
    (SharedPtr.moveAssignH dst src h).2.2 = h := by
  refine ⟨rfl, rfl, rfl, rfl, rfl, ?_⟩
  simp [SharedPtr.moveAssignH, SharedPtr.clearH, hdst]

theorem C9_move_transfer_witness :
    (SharedPtr.moveCtorH ⟨some 5, some 0⟩ hS2).1 = ⟨some 5, some 0⟩ ∧
    (SharedPtr.moveCtorH ⟨some 5, some 0⟩ hS2).2.1 = SPtr.empty ∧
    (SharedPtr.moveCtorH ⟨some 5, some 0⟩ hS2).2.2 = hS2 ∧
    (SharedPtr.moveAssignH SPtr.empty ⟨some 5, some 0⟩ hS2).1 =
      ⟨some 5, some 0⟩ ∧
    (SharedPtr.moveAssignH SPtr.empty ⟨some 5, some 0⟩ hS2).2.1 =
      SPtr.empty ∧
    (SharedPtr.moveAssignH SPtr.empty ⟨some 5, some 0⟩ hS2).2.2 = hS2 :=
  C9_move_transfer ⟨some 5, some 0⟩ SPtr.empty hS2 rfl

theorem Heap.read_write_self (h : Heap) (a : Nat) (b : BaseControlBlock) :
    (h.write a b).read a = b := by
  simp [Heap.read, Heap.write]

theorem Heap.read_write_ne (h : Heap) (a x : Nat) (b : BaseControlBlock)
    (hx : x ≠ a) : (h.write a b).read x = h.read x := by
  simp [Heap.read, Heap.write, hx]

theorem Heap.write_write (h : Heap) (a : Nat) (b1 b2 : BaseControlBlock) :
    (h.write a b1).write a b2 = h.write a b2 := by
  funext x
  by_cases hx : x = a <;> simp [Heap.write, hx]

/-- C3: `lock()` on an expired weak handle returns an empty strong
handle and mutates nothing (the heap is returned unchanged); `lock()`
on a weak handle whose object is alive returns a strong handle sharing
the weak handle's pointer pair, with that block's `shared_cnt`
incremented by exactly one, its `weak_cnt` (and destroy/deallocate
history) unchanged, and every other block untouched. -/
theorem C3_lock (w : SPtr) (h : Heap) :
    (WeakPtr.expiredH w h = true → WeakPtr.lockH w h = (SPtr.empty, h)) ∧
    (∀ a, w.cb = some a → WeakPtr.expiredH w h = false →
      (WeakPtr.lockH w h).1 = ⟨w.object, w.cb⟩ ∧
      ((WeakPtr.lockH w h).2.read a).shared_cnt =
        (h.read a).shared_cnt + 1 ∧
      ((WeakPtr.lockH w h).2.read a).weak_cnt = (h.read a).weak_cnt ∧
      ((WeakPtr.lockH w h).2.read a).variant = (h.read a).variant ∧
      ((WeakPtr.lockH w h).2.read a).destroyCalls =
        (h.read a).destroyCalls ∧
      ((WeakPtr.lockH w h).2.read a).deallocCalls =
        (h.read a).deallocCalls ∧
      (∀ x, x ≠ a → (WeakPtr.lockH w h).2.read x = h.read x)) := by
  constructor
  · intro hexp
    simp [WeakPtr.lockH, hexp]
  · intro a ha hlive
    obtain ⟨wo, wc⟩ := w
    simp only at ha
    subst ha
    have hsc : (h.read a).shared_cnt ≠ 0 := by
      simp [WeakPtr.expiredH, WeakPtr.use_countH] at hlive
      exact hlive
    have hlock : WeakPtr.lockH ⟨wo, some a⟩ h =
        (⟨wo, some a⟩,
          h.write a (WeakPtr.clearB (incSharedB (incWeakB (h.read a))))) := by
      rw [WeakPtr.lockH, if_neg (by simp [hlive])]
      simp only [WeakPtr.copyCtorH, SharedPtr.fromWeakBodyH, WeakPtr.clearH,
        Heap.read_write_self, Heap.write_write]
    have hblk : WeakPtr.clearB (incSharedB (incWeakB (h.read a))) =
        { h.read a with shared_cnt := (h.read a).shared_cnt + 1 } := by
      unfold WeakPtr.clearB incSharedB incWeakB
      simp
    rw [hlock, hblk]
    refine ⟨rfl, ?_, ?_, ?_, ?_, ?_, ?_⟩ <;>
      first
      | (intro x hx
         rw [Heap.read_write_ne h a x _ hx])
      | simp [Heap.read_write_self]

theorem C3_lock_witness :
    WeakPtr.lockH SPtr.empty h0 = (SPtr.empty, h0) ∧
    (WeakPtr.lockH ⟨none, some 0⟩ hS2).1 = ⟨none, some 0⟩ ∧
    ((WeakPtr.lockH ⟨none, some 0⟩ hS2).2.read 0).shared_cnt =
      (hS2.read 0).shared_cnt + 1 ∧
    ((WeakPtr.lockH ⟨none, some 0⟩ hS2).2.read 0).weak_cnt =
      (hS2.read 0).weak_cnt ∧
    (WeakPtr.lockH ⟨none, some 0⟩ hS2).2.read 5 = hS2.read 5 :=
  ⟨(C3_lock SPtr.empty h0).1 (by decide),
   ((C3_lock ⟨none, some 0⟩ hS2).2 0 rfl (by decide)).1,
   ((C3_lock ⟨none, some 0⟩ hS2).2 0 rfl (by decide)).2.1,
   ((C3_lock ⟨none, some 0⟩ hS2).2 0 rfl (by decide)).2.2.1,
   ((C3_lock ⟨none, some 0⟩ hS2).2 0 rfl (by decide)).2.2.2.2.2.2 5
     (by decide)⟩

theorem step_destroy_char (s : SysState) (o : HandleOp) :
    (o.step s).blk.destroyCalls =
      if o = HandleOp.destroyStrong ∧ s.blk.shared_cnt - 1 = 0
      then s.blk.destroyCalls + 1 else s.blk.destroyCalls := by
  cases o with
  | copyStrong => simp [HandleOp.step, incSharedB]
  | moveStrong => simp [HandleOp.step]
  | destroyStrong => simp [HandleOp.step, strongClearB_destroy]
  | weakFromStrong => simp [HandleOp.step, incWeakB]
  | copyWeak => simp [HandleOp.step, incWeakB]
  | moveWeak => simp [HandleOp.step]
  | destroyWeak => simp [HandleOp.step, weakClearB_destroy]
  | lockWeak =>
    by_cases hz : s.blk.shared_cnt = 0 <;>
      simp [HandleOp.step, hz, weakClearB_destroy, incSharedB, incWeakB]

theorem step_dealloc_char (s : SysState) (o : HandleOp) :
    (o.step s).blk.deallocCalls =
      if (o = HandleOp.destroyStrong ∧ s.blk.shared_cnt - 1 = 0 ∧
            s.blk.weak_cnt = 0) ∨
         (o = HandleOp.destroyWeak ∧ s.blk.shared_cnt = 0 ∧
            s.blk.weak_cnt - 1 = 0)
      then s.blk.deallocCalls + 1 else s.blk.deallocCalls := by
  cases o with
  | copyStrong => simp [HandleOp.step, incSharedB]
  | moveStrong => simp [HandleOp.step]
  | destroyStrong => simp [HandleOp.step, strongClearB_dealloc]
  | weakFromStrong => simp [HandleOp.step, incWeakB]
  | copyWeak => simp [HandleOp.step, incWeakB]
  | moveWeak => simp [HandleOp.step]
  | destroyWeak => simp [HandleOp.step, weakClearB_dealloc]
  | lockWeak =>
    by_cases hz : s.blk.shared_cnt = 0 <;>
      simp [HandleOp.step, hz, weakClearB_dealloc, incSharedB, incWeakB]

theorem step_shared_char (s : SysState) (o : HandleOp) :
    (o.step s).blk.shared_cnt =
      (match o with
       | HandleOp.copyStrong => s.blk.shared_cnt + 1
       | HandleOp.destroyStrong => s.blk.shared_cnt - 1
       | HandleOp.lockWeak =>
         if s.blk.shared_cnt = 0 then s.blk.shared_cnt
         else s.blk.shared_cnt + 1
       | _ => s.blk.shared_cnt) := by
  cases o with
  | copyStrong => simp [HandleOp.step, incSharedB]
  | moveStrong => simp [HandleOp.step]
  | destroyStrong => simp [HandleOp.step, strongClearB_shared]
  | weakFromStrong => simp [HandleOp.step, incWeakB]
  | copyWeak => simp [HandleOp.step, incWeakB]
  | moveWeak => simp [HandleOp.step]
  | destroyWeak => simp [HandleOp.step, weakClearB_shared]
  | lockWeak =>
    by_cases hz : s.blk.shared_cnt = 0 <;>
      simp [HandleOp.step, hz, weakClearB_shared, incSharedB, incWeakB]

theorem step_weak_char (s : SysState) (o : HandleOp) :
    (o.step s).blk.weak_cnt =
      (match o with
       | HandleOp.weakFromStrong => s.blk.weak_cnt + 1
       | HandleOp.copyWeak => s.blk.weak_cnt + 1
       | HandleOp.destroyWeak => s.blk.weak_cnt - 1
       | _ => s.blk.weak_cnt) := by
  cases o with
  | copyStrong => simp [HandleOp.step, incSharedB]
  | moveStrong => simp [HandleOp.step]
  | destroyStrong => simp [HandleOp.step, strongClearB_weak]
  | weakFromStrong => simp [HandleOp.step, incWeakB]
  | copyWeak => simp [HandleOp.step, incWeakB]
  | moveWeak => simp [HandleOp.step]
  | destroyWeak => simp [HandleOp.step, weakClearB_weak]
  | lockWeak =>
    by_cases hz : s.blk.shared_cnt = 0 <;>
      simp [HandleOp.step, hz, weakClearB_weak, incSharedB, incWeakB]

theorem ite_le_one (c : Prop) [Decidable c] :
    (if c then 1 else 0 : Nat) ≤ 1 := by
  by_cases hc : c <;> simp [hc]

theorem ite_and_le_ite (c d : Prop) [Decidable c] [Decidable d] :
    (if c ∧ d then 1 else 0 : Nat) ≤ if c then 1 else 0 := by
  by_cases hc : c <;> by_cases hd : d <;> simp [hc, hd]

/-- The creation state of a fused block holding the value 42: counts
`(1, 0)`, one live strong handle, no weak handle. -/
def s0w : SysState := ⟨⟨1, 0, CBVariant.fused 42, 0, 0⟩, 1, 0⟩

/-- C2: along every reachable trace of handle operations on a block,
`shared_cnt` equals the number of live strong handles, `weak_cnt`
equals the number of live weak handles, and whether the object has
been destroyed is a function of the live strong count alone — the
weak count never affects it. -/
theorem C2_counts_mirror_live_handles (s : SysState) (hs : Reachable s) :
    s.blk.shared_cnt = s.liveStrong ∧
    s.blk.weak_cnt = s.liveWeak ∧
    s.blk.destroyCalls = (if s.liveStrong = 0 then 1 else 0) := by
  obtain ⟨h1, h2, h3, h4⟩ := countInv_of_reachable hs
  exact ⟨h1, h2, h3⟩

theorem C2_counts_mirror_live_handles_witness :
    (HandleOp.weakFromStrong.step s0w).blk.shared_cnt =
      (HandleOp.weakFromStrong.step s0w).liveStrong ∧
    (HandleOp.weakFromStrong.step s0w).blk.weak_cnt =
      (HandleOp.weakFromStrong.step s0w).liveWeak ∧
    (HandleOp.weakFromStrong.step s0w).blk.destroyCalls =
      (if (HandleOp.weakFromStrong.step s0w).liveStrong = 0 then 1
       else 0) :=
  C2_counts_mirror_live_handles (HandleOp.weakFromStrong.step s0w)
    (Reachable.step s0w HandleOp.weakFromStrong
      (Reachable.start (CBVariant.fused 42))
      (by show (1 : Nat) ≤ 1; decide))

/-- C1: along every reachable trace, one enabled handle operation
increments the `destroy_object` call count exactly when it is the
destruction of a strong handle with `shared_cnt` at 1 (the 1-to-0
transition), and increments the `deallocate_cb` call count exactly
when, after the transition, both counters are 0 and the block has not
been deallocated before; each call count changes by at most one per
step, stays at most 1, and `deallocate_cb` never runs before
`destroy_object`. -/
theorem C1_destroy_dealloc_discipline (s : SysState) (o : HandleOp)
    (hs : Reachable s) (hp : o.pre s) :
    ((o.step s).blk.destroyCalls = s.blk.destroyCalls + 1 ↔
      o = HandleOp.destroyStrong ∧ s.blk.shared_cnt = 1) ∧
    ((o.step s).blk.destroyCalls = s.blk.destroyCalls ∨
      (o.step s).blk.destroyCalls = s.blk.destroyCalls + 1) ∧
    ((o.step s).blk.deallocCalls = s.blk.deallocCalls + 1 ↔
      (o.step s).blk.shared_cnt = 0 ∧ (o.step s).blk.weak_cnt = 0 ∧
        s.blk.deallocCalls = 0) ∧
    ((o.step s).blk.deallocCalls = s.blk.deallocCalls ∨
      (o.step s).blk.deallocCalls = s.blk.deallocCalls + 1) ∧
    (o.step s).blk.destroyCalls ≤ 1 ∧
    (o.step s).blk.deallocCalls ≤ (o.step s).blk.destroyCalls := by
  obtain ⟨h1, h2, h3, h4⟩ := countInv_of_reachable hs
  obtain ⟨p1, p2, p3, p4⟩ :=
    countInv_of_reachable (Reachable.step s o hs hp)
  refine ⟨?_, ?_, ?_, ?_, ?_, ?_⟩
  · rw [step_destroy_char]
    by_cases ho : o = HandleOp.destroyStrong
    · subst ho
      have hp1 : 1 ≤ s.liveStrong := hp
      by_cases hc : s.blk.shared_cnt - 1 = 0 <;> simp [hc] <;> omega
    · simp [ho]
  · rw [step_destroy_char]
    by_cases hc : o = HandleOp.destroyStrong ∧ s.blk.shared_cnt - 1 = 0 <;>
      simp [hc]
  · rw [step_dealloc_char, step_shared_char, step_weak_char]
    cases o with
    | copyStrong =>
      have hp1 : 1 ≤ s.liveStrong := hp
      simp <;> omega
    | moveStrong =>
      have hp1 : 1 ≤ s.liveStrong := hp
      simp <;> omega
    | destroyStrong =>
      have hp1 : 1 ≤ s.liveStrong := hp
      have hd4 : s.blk.deallocCalls = 0 := by
        rw [h4]
        have hno : ¬(s.liveStrong = 0 ∧ s.liveWeak = 0) := by omega
        simp [hno]
      by_cases hc : s.blk.shared_cnt - 1 = 0 <;>
        by_cases hw : s.blk.weak_cnt = 0 <;>
        simp [hc, hw] <;> omega
    | weakFromStrong =>
      have hp1 : 1 ≤ s.liveStrong := hp
      simp <;> omega
    | copyWeak =>
      have hp1 : 1 ≤ s.liveWeak := hp
      simp <;> omega
    | moveWeak =>
      have hp1 : 1 ≤ s.liveWeak := hp
      simp <;> omega
    | destroyWeak =>
      have hp1 : 1 ≤ s.liveWeak := hp
      have hd4 : s.blk.deallocCalls = 0 := by
        rw [h4]
        have hno : ¬(s.liveStrong = 0 ∧ s.liveWeak = 0) := by omega
        simp [hno]
      by_cases hc : s.blk.shared_cnt = 0 <;>
        by_cases hw : s.blk.weak_cnt - 1 = 0 <;>
        simp [hc, hw] <;> omega
    | lockWeak =>
      have hp1 : 1 ≤ s.liveWeak := hp
      by_cases hz : s.blk.shared_cnt = 0 <;> simp [hz] <;> omega
  · rw [step_dealloc_char]
    by_cases hc : (o = HandleOp.destroyStrong ∧ s.blk.shared_cnt - 1 = 0 ∧
        s.blk.weak_cnt = 0) ∨
      (o = HandleOp.destroyWeak ∧ s.blk.shared_cnt = 0 ∧
        s.blk.weak_cnt - 1 = 0) <;>
      simp [hc]
  · rw [p3]
    exact ite_le_one _
  · rw [p3, p4]
    exact ite_and_le_ite _ _

theorem C1_destroy_dealloc_discipline_witness :
    ((HandleOp.destroyStrong.step s0w).blk.destroyCalls =
        s0w.blk.destroyCalls + 1 ↔
      HandleOp.destroyStrong = HandleOp.destroyStrong ∧
        s0w.blk.shared_cnt = 1) ∧
    ((HandleOp.destroyStrong.step s0w).blk.destroyCalls =
        s0w.blk.destroyCalls ∨
      (HandleOp.destroyStrong.step s0w).blk.destroyCalls =
        s0w.blk.destroyCalls + 1) ∧
    ((HandleOp.destroyStrong.step s0w).blk.deallocCalls =
        s0w.blk.deallocCalls + 1 ↔
      (HandleOp.destroyStrong.step s0w).blk.shared_cnt = 0 ∧
        (HandleOp.destroyStrong.step s0w).blk.weak_cnt = 0 ∧
        s0w.blk.deallocCalls = 0) ∧
    ((HandleOp.destroyStrong.step s0w).blk.deallocCalls =
        s0w.blk.deallocCalls ∨
      (HandleOp.destroyStrong.step s0w).blk.deallocCalls =
        s0w.blk.deallocCalls + 1) ∧
    (HandleOp.destroyStrong.step s0w).blk.destroyCalls ≤ 1 ∧
    (HandleOp.destroyStrong.step s0w).blk.deallocCalls ≤
      (HandleOp.destroyStrong.step s0w).blk.destroyCalls :=
  C1_destroy_dealloc_discipline s0w HandleOp.destroyStrong
    (Reachable.start (CBVariant.fused 42))
    (by show (1 : Nat) ≤ 1; decide)

/-- The assignment `wptr = *this` performed inside
`update_enable_shared_from_this` (source lines 263-269): the
`SharedPtr` is implicitly converted to a temporary `WeakPtr`
(`WeakPtr(const SharedPtr&)`, lines 317-321, `weak_cnt` up), which is
move-assigned into the object's embedded `wptr` (move-and-swap, lines
374-378), after which the swapped-out previous `wptr` value is
destroyed (`WeakPtr::clear`).  Returns the new `wptr` value and the
updated heap. -/
def assignWptrFromShared (self old : SPtr) (h : Heap) : SPtr × Heap :=
  let (temp, h1) := WeakPtr.fromSharedH self h
  let h2 := WeakPtr.clearH old h1
  (temp, h2)

/-- `SharedPtr::update_enable_shared_from_this` (source lines 258-271)
for an owned type deriving `EnableSharedFromThis`: if the handle's
control-block pointer is null, return immediately without touching the
embedded weak handle; otherwise assign `*this` to the owned object's
embedded weak handle.  The source's `object != nullptr` test only
selects where that embedded handle lives (separately allocated object
vs the fused block's embedded storage); both branches perform the same
assignment, so the embedded handle's value is threaded explicitly
here. -/
def update_enable_shared_from_this (self wptr : SPtr) (h : Heap) :
    SPtr × Heap :=
  match self.cb with
  | none => (wptr, h)
  | some _ => assignWptrFromShared self wptr h

/-- The raw-pointer constructor `SharedPtr(T*, Deleter, Alloc)` (source
lines 89-108) for an owned type deriving `EnableSharedFromThis`: the
member initializer list sets `object`; `cb` still holds its default
`nullptr` when the body calls `update_enable_shared_from_this()`
first, and only afterwards is the regular control block (counts
`(1, 0)`) allocated and assigned to `cb`.  Takes and returns the owned
object's embedded weak handle alongside the heap. -/
def SharedPtr.fromRawEsft (ptr : Nat) (wptr : SPtr) (h : Heap) (a : Nat) :
    SPtr × SPtr × Heap :=
  let self0 : SPtr := ⟨some ptr, none⟩
  let (wp1, h1) := update_enable_shared_from_this self0 wptr h
  let h2 := h1.write a ⟨1, 0, CBVariant.regular ptr, 0, 0⟩
  (⟨some ptr, some a⟩, wp1, h2)

/-- `makeShared` (source lines 289-294) for an owned type deriving
`EnableSharedFromThis`: the fused block is created with counts
`(1, 0)` and a default-constructed embedded weak handle; the private
`SharedPtr(MakeSharedControlBlock*)` constructor (lines 233-237) sets
`cb` in its initializer list, so its body's
`update_enable_shared_from_this()` call runs with a non-null `cb` and
populates the embedded weak handle. -/
def makeSharedEsft (h : Heap) (a : Nat) : SPtr × SPtr × Heap :=
  let h1 := h.write a ⟨1, 0, CBVariant.fused 0, 0, 0⟩
  let self : SPtr := ⟨none, some a⟩
  let (wp, h2) := update_enable_shared_from_this self SPtr.empty h1
  (self, wp, h2)

/-- `EnableSharedFromThis::shared_from_this` (source lines 439-441):
`return wptr.lock();`. -/
def shared_from_this (wptr : SPtr) (h : Heap) : SPtr × Heap :=
  WeakPtr.lockH wptr h

/-- A strong handle owning a self-observing object built by the
in-place factory at block address 0: (handle, the object's embedded
weak handle, heap). -/
def esftFused : SPtr × SPtr × Heap := makeSharedEsft h0 0

/-- A strong handle owning a self-observing object built from a raw
pointer (object value 7, fresh block address 1): (handle, the object's
embedded weak handle, heap). -/
def esftRaw : SPtr × SPtr × Heap := SharedPtr.fromRawEsft 7 SPtr.empty h0 1

/-- C4: on the fused-allocation path the embedded weak handle is
populated when the strong handle is constructed, and
`shared_from_this()` then yields a handle sharing the block with
`shared_cnt` incremented by one; invoking it before any strong handle
exists yields an empty handle.  But on the separate-allocation
(raw-pointer) path the constructor calls
`update_enable_shared_from_this()` while `cb` is still null (the
member initializer list only set `object`; `cb` is assigned later in
the body), so the function returns early, the embedded weak handle
stays empty, and `shared_from_this()` returns an empty handle even
though a strong handle owning the object exists — contradicting the
claim for that path. -/
theorem C4_esft_raw_path_not_populated :
    (shared_from_this SPtr.empty h0).1 = SPtr.empty ∧
    esftFused.2.1 = ⟨none, some 0⟩ ∧
    (esftFused.2.2.read 0).shared_cnt = 1 ∧
    (esftFused.2.2.read 0).weak_cnt = 1 ∧
    (shared_from_this esftFused.2.1 esftFused.2.2).1 = ⟨none, some 0⟩ ∧
    (((shared_from_this esftFused.2.1 esftFused.2.2).2).read 0).shared_cnt
      = 2 ∧
    esftRaw.1 = ⟨some 7, some 1⟩ ∧ (esftRaw.2.2.read 1).shared_cnt = 1 ∧
    esftRaw.2.1 = SPtr.empty ∧
    (shared_from_this esftRaw.2.1 esftRaw.2.2).1 = SPtr.empty ∧
    (((shared_from_this esftRaw.2.1 esftRaw.2.2).2).read 1).shared_cnt
      = 1 := by
  decide

end SmartPointers
